import Mathlib

set_option maxRecDepth 8000

/-
Verification of the diagnostic index and query resolver of src/Cap.py.

The Python code is embedded shallowly:
  * strings are Lean Strings (logically lists of Chars),
  * Python dicts (which preserve insertion order) are association lists
    with unique keys maintained by upsert,
  * Python sets are insertion-ordered duplicate-free lists,
  * the regular expressions used by handle_query are deterministic scanners
    (for these patterns the character classes of adjacent greedy pieces are
    disjoint, so Python's leftmost greedy matching is maximal-munch),
  * the optional AI collaborator is an abstract function
    String -> String -> Option String together with a useAI flag.
-/

/- ===== Character classes (ASCII model of Python str methods / re classes) ===== -/

def isPySpace (c : Char) : Bool :=
  c == ' ' || c == '\t' || c == '\n' || c == '\r' || c == '\x0b' || c == '\x0c'

def isPyDigit (c : Char) : Bool := '0' ≤ c && c ≤ '9'

def isPyWord (c : Char) : Bool :=
  ('a' ≤ c && c ≤ 'z') || ('A' ≤ c && c ≤ 'Z') || ('0' ≤ c && c ≤ '9') || c == '_'

def isColonSpace (c : Char) : Bool := c == ':' || isPySpace c

/- ASCII model of str.lower(): map the 26 uppercase letters, leave the rest. -/

def lowerPairs : List (Char × Char) :=
  [('A','a'),('B','b'),('C','c'),('D','d'),('E','e'),('F','f'),('G','g'),
   ('H','h'),('I','i'),('J','j'),('K','k'),('L','l'),('M','m'),('N','n'),
   ('O','o'),('P','p'),('Q','q'),('R','r'),('S','s'),('T','t'),('U','u'),
   ('V','v'),('W','w'),('X','x'),('Y','y'),('Z','z')]

def lowerChar (c : Char) : Char :=
  match lowerPairs.find? (fun p => p.1 == c) with
  | some p => p.2
  | none => c

def isUpperChar (c : Char) : Bool :=
  (lowerPairs.find? (fun p => p.1 == c)).isSome

def lowerStr (s : String) : String := String.mk (s.data.map lowerChar)

/- ===== Substring test: Python's `needle in hay` ===== -/

def isPrefixL : List Char → List Char → Bool
  | [], _ => true
  | _ :: _, [] => false
  | p :: ps, c :: cs => p == c && isPrefixL ps cs

def containsL (needle : List Char) : List Char → Bool
  | [] => isPrefixL needle []
  | c :: rest => isPrefixL needle (c :: rest) || containsL needle rest

def strContains (hay needle : String) : Bool := containsL needle.data hay.data

/- ===== Deterministic scanners for the four regexes of handle_query ===== -/

def stripLit : List Char → List Char → Option (List Char)
  | [], l => some l
  | _ :: _, [] => none
  | p :: ps, c :: cs => if p == c then stripLit ps cs else none

def takeRun (p : Char → Bool) : List Char → List Char × List Char
  | [] => ([], [])
  | c :: rest =>
    if p c then
      let r := takeRun p rest
      (c :: r.1, r.2)
    else ([], c :: rest)

/- `[:\s]+(\w+)`-style tail: one or more colon/space chars, then a captured
   nonempty run of capP characters. -/
def matchTail (capP : Char → Bool) (l : List Char) : Option String :=
  let sep := takeRun isColonSpace l
  if sep.1.isEmpty then none
  else
    let cap := takeRun capP sep.2
    if cap.1.isEmpty then none else some (String.mk cap.1)

/- `objectid[:\s]+(\d+)` at the current position. -/
def matchObjIdNum (l : List Char) : Option String :=
  match stripLit "objectid".data l with
  | some r => matchTail isPyDigit r
  | none => none

/- `w1\s*w2[:\s]+(cap+)` at the current position. -/
def matchTwoWord (w1 w2 : List Char) (capP : Char → Bool) (l : List Char) : Option String :=
  match stripLit w1 l with
  | some r1 =>
    let sp := takeRun isPySpace r1
    match stripLit w2 sp.2 with
    | some r2 => matchTail capP r2
    | none => none
  | none => none

def matchObjIdW : List Char → Option String := matchTwoWord "object".data "id".data isPyWord

def matchFlashW : List Char → Option String := matchTwoWord "flash".data "code".data isPyWord

def matchBusNum : List Char → Option String := matchTwoWord "bus".data "type".data isPyDigit

/- re.search: try the matcher at each position, leftmost first. -/
def reSearch (m : List Char → Option String) : List Char → Option String
  | [] => m []
  | c :: rest =>
    match m (c :: rest) with
    | some t => some t
    | none => reSearch m rest

/- ===== Python str.split() (whitespace, no empty words) ===== -/

def wordsAux : List Char → List Char → List String
  | cur, [] => if cur.isEmpty then [] else [String.mk cur.reverse]
  | cur, c :: rest =>
    if isPySpace c then
      if cur.isEmpty then wordsAux [] rest
      else String.mk cur.reverse :: wordsAux [] rest
    else wordsAux (c :: cur) rest

def splitWs (s : String) : List String := wordsAux [] s.data

/- ===== Python str.replace (all occurrences) and str.strip ===== -/

def replaceFuel (pat rep : List Char) : Nat → List Char → List Char
  | 0, l => l
  | _ + 1, [] => []
  | n + 1, c :: rest =>
    match stripLit pat (c :: rest) with
    | some remaining => rep ++ replaceFuel pat rep n remaining
    | none => c :: replaceFuel pat rep n rest

def replaceAllStr (s pat rep : String) : String :=
  String.mk (replaceFuel pat.data rep.data s.data.length s.data)

def stripSpaces (s : String) : String :=
  String.mk (((s.data.dropWhile isPySpace).reverse.dropWhile isPySpace).reverse)

/- ===== Python sorted() on strings (code-point lexicographic, stable) ===== -/

def leListChar : List Char → List Char → Bool
  | [], _ => true
  | _ :: _, [] => false
  | a :: as, b :: bs =>
    if a.toNat < b.toNat then true
    else if b.toNat < a.toNat then false
    else leListChar as bs

def strLeB (a b : String) : Bool := leListChar a.data b.data

def insortStr (x : String) : List String → List String
  | [] => [x]
  | y :: ys => if strLeB x y then x :: y :: ys else y :: insortStr x ys

def sortStr (l : List String) : List String := l.foldr insortStr []

/- Python set(): keep first occurrences. -/
def dedupKeep (l : List String) : List String :=
  l.foldl (fun acc v => if v ∈ acc then acc else acc ++ [v]) []

/- ===== Data model ===== -/

inductive RecordKind
  | dataObject
  | exceptionMeta
  | dataPointMeta
  | other
deriving DecidableEq, Repr

/- A parsed XML element: its section plus the attributes Cap.py reads
   (an absent attribute reads as the empty string). -/
structure RawRecord where
  kind : RecordKind
  objectID : String
  description : String
  unitText : String
  correctiveAction : String
  flashCode : String
  severityID : String
  manufacturerAndModel : String
  firmwareVersion : String
  busType : String
deriving DecidableEq, Repr

structure SignalRecord where
  description : String
  unit_text : String
deriving DecidableEq, Repr

structure ExceptionRecord where
  corrective_action : String
  flash_code : String
  severity : String
deriving DecidableEq, Repr

structure MetaRecord where
  manufacturer : String
  firmware : String
  bus_type : String
deriving DecidableEq, Repr

structure DiagIndex where
  data_objects : List (String × SignalRecord)
  exceptions : List (String × ExceptionRecord)
  metadata : List (String × List MetaRecord)
  bus_types : List String
  manufacturers : List String
  flash_codes : List (String × String)
  severity_levels : List String
  objectid_to_bustypes : List (String × List String)
deriving DecidableEq, Repr

def emptyIdx : DiagIndex :=
  { data_objects := [], exceptions := [], metadata := [], bus_types := []
  , manufacturers := [], flash_codes := [], severity_levels := []
  , objectid_to_bustypes := [] }

/- ===== Association-list operations modelling Python dicts ===== -/

def lookupA {α : Type} (k : String) : List (String × α) → Option α
  | [] => none
  | (k', v) :: rest => if k' = k then some v else lookupA k rest

/- d[k] = v : update in place, or append a new key at the end. -/
def upsert {α : Type} (k : String) (v : α) : List (String × α) → List (String × α)
  | [] => [(k, v)]
  | (k', v') :: rest => if k' = k then (k, v) :: rest else (k', v') :: upsert k v rest

/- `if k not in d: d[k] = []` -/
def ensureKey {α : Type} (k : String) : List (String × List α) → List (String × List α)
  | [] => [(k, [])]
  | (k', vs) :: rest => if k' = k then (k', vs) :: rest else (k', vs) :: ensureKey k rest

/- `if k not in d: d[k] = []` followed by `d[k].append(v)` -/
def appendEntry {α : Type} (k : String) (v : α) : List (String × List α) → List (String × List α)
  | [] => [(k, [v])]
  | (k', vs) :: rest => if k' = k then (k', vs ++ [v]) :: rest else (k', vs) :: appendEntry k v rest

/- s.add(v) on an insertion-ordered set. -/
def addToSet (v : String) (s : List String) : List String :=
  if v ∈ s then s else s ++ [v]

/- ===== build_diagnostic_index ===== -/

def isDataObjectK (r : RawRecord) : Bool := r.kind == RecordKind.dataObject

def isExceptionK (r : RawRecord) : Bool := r.kind == RecordKind.exceptionMeta

def isDataPointK (r : RawRecord) : Bool := r.kind == RecordKind.dataPointMeta

def toSignal (r : RawRecord) : SignalRecord :=
  { description := r.description, unit_text := r.unitText }

def toFault (r : RawRecord) : ExceptionRecord :=
  { corrective_action := r.correctiveAction, flash_code := r.flashCode, severity := r.severityID }

def toMeta (r : RawRecord) : MetaRecord :=
  { manufacturer := r.manufacturerAndModel, firmware := r.firmwareVersion, bus_type := r.busType }

/- One step of a section loop that upserts a singleton entry, skipping
   records with a missing/empty ObjectID. -/
def upStep {α : Type} (val : RawRecord → α) (m : List (String × α)) (r : RawRecord) :
    List (String × α) :=
  if r.objectID = "" then m else upsert r.objectID (val r) m

/- One step of the DataPointMetadata loop for the metadata dict. -/
def apStep {α : Type} (val : RawRecord → α) (m : List (String × List α)) (r : RawRecord) :
    List (String × List α) :=
  if r.objectID = "" then m else appendEntry r.objectID (val r) m

def stepObjBts (m : List (String × List String)) (r : RawRecord) : List (String × List String) :=
  if r.objectID = "" then m
  else if r.busType = "" then ensureKey r.objectID m
  else appendEntry r.objectID r.busType m

def stepFlash (m : List (String × String)) (r : RawRecord) : List (String × String) :=
  if r.objectID = "" then m
  else if r.flashCode = "" then m
  else upsert r.flashCode r.objectID m

def stepSev (s : List String) (r : RawRecord) : List String :=
  if r.objectID = "" then s
  else if r.severityID = "" then s
  else addToSet r.severityID s

def stepBts (s : List String) (r : RawRecord) : List String :=
  if r.objectID = "" then s
  else if r.busType = "" then s
  else addToSet r.busType s

def stepManus (s : List String) (r : RawRecord) : List String :=
  if r.objectID = "" then s
  else if r.manufacturerAndModel = "" then s
  else addToSet r.manufacturerAndModel s

/- The three xpath passes of build_diagnostic_index, one fold per indexed
   component (the components of each pass are updated independently). -/
def build_diagnostic_index (records : List RawRecord) : DiagIndex :=
  { data_objects := (records.filter isDataObjectK).foldl (upStep toSignal) []
  , exceptions := (records.filter isExceptionK).foldl (upStep toFault) []
  , metadata := (records.filter isDataPointK).foldl (apStep toMeta) []
  , bus_types := (records.filter isDataPointK).foldl stepBts []
  , manufacturers := (records.filter isDataPointK).foldl stepManus []
  , flash_codes := (records.filter isExceptionK).foldl stepFlash []
  , severity_levels := (records.filter isExceptionK).foldl stepSev []
  , objectid_to_bustypes := (records.filter isDataPointK).foldl stepObjBts [] }

/- ===== Diagnostic query functions ===== -/

structure Diagnostic where
  object_id : String
  data_object : Option SignalRecord
  exception : Option ExceptionRecord
  metadata : List MetaRecord
  bus_types : List String
deriving DecidableEq, Repr

def get_complete_diagnostic (idx : DiagIndex) (objId : String) : Diagnostic :=
  { object_id := objId
  , data_object := lookupA objId idx.data_objects
  , exception := lookupA objId idx.exceptions
  , metadata := (lookupA objId idx.metadata).getD []
  , bus_types := (lookupA objId idx.objectid_to_bustypes).getD [] }

def get_bus_types_for_objectid (idx : DiagIndex) (objId : String) : List String :=
  (lookupA objId idx.objectid_to_bustypes).getD []

def search_by_description (idx : DiagIndex) (term : String) : List String :=
  (idx.data_objects.filter
    (fun p => strContains (lowerStr p.2.description) (lowerStr term))).map Prod.fst

def search_by_flash_code (idx : DiagIndex) (fc : String) : Option String :=
  lookupA fc idx.flash_codes

/- inner loop of get_by_manufacturer: scan the metadata list, stop at the
   first record whose manufacturer contains the search term. -/
def manuHits (term : String) : List MetaRecord → Bool
  | [] => false
  | m :: rest =>
    if strContains (lowerStr m.manufacturer) (lowerStr term) then true else manuHits term rest

def get_by_manufacturer (idx : DiagIndex) (manufacturer : String) : List String :=
  idx.metadata.foldl
    (fun results p => if manuHits manufacturer p.2 then results ++ [p.1] else results) []

/- inner loop of get_by_bus_type: scan, stop at the first equal bus_type. -/
def busTypeHits (bt : String) : List MetaRecord → Bool
  | [] => false
  | m :: rest => if m.bus_type = bt then true else busTypeHits bt rest

def get_by_bus_type (idx : DiagIndex) (bt : String) : List String :=
  idx.metadata.foldl
    (fun results p => if busTypeHits bt p.2 then results ++ [p.1] else results) []

/- ===== format_diagnostic_report ===== -/

def configEntry (i : Nat) (m : MetaRecord) : String :=
  let iS := toString i
  let man := m.manufacturer
  let fw := m.firmware
  let bt := m.bus_type
  let a := s!"**Configuration {iS}:**\n- Manufacturer: {man}\n"
  let b := if fw ≠ "" then a ++ s!"- Firmware: `{fw}`\n" else a
  let c := if bt ≠ "" then b ++ s!"- Bus Type: {bt}\n" else b
  c ++ "\n"

def configsFrom (i : Nat) : List MetaRecord → String
  | [] => ""
  | m :: rest => configEntry i m ++ configsFrom (i + 1) rest

def format_diagnostic_report (idx : DiagIndex) (objId : String) : String :=
  let diag := get_complete_diagnostic idx objId
  let header := s!"## 🔍 Diagnostic Report for ObjectID: **{objId}**\n\n"
  let sec1 :=
    match diag.data_object with
    | some d =>
      let ds := d.description
      let un := d.unit_text
      let x := s!"### 📊 Signal Description\n**Description:** {ds}\n\n"
      if un ≠ "" then x ++ s!"**Unit:** {un}\n\n" else x
    | none => "### 📊 Signal Description\n❌ No data found\n\n"
  let sec2 :=
    match diag.exception with
    | some e =>
      let ca := e.corrective_action
      let fc := e.flash_code
      let sv := e.severity
      let x := s!"### ⚠️ Diagnostic Information\n**Corrective Action:** {ca}\n\n"
      let y := if fc ≠ "" then x ++ s!"**Flash Code:** `{fc}`\n\n" else x
      if sv ≠ "" then y ++ s!"**Severity:** {sv}\n\n" else y
    | none => "### ⚠️ Diagnostic Information\n❌ No exception data found\n\n"
  let sec3 :=
    if diag.metadata.isEmpty then "### 🔧 Hardware & Firmware\n❌ No metadata found\n\n"
    else
      let btPart :=
        if diag.bus_types.isEmpty then ""
        else
          let ub := sortStr (dedupKeep diag.bus_types)
          let n := toString ub.length
          let j := String.intercalate ", " ub
          s!"**Bus Types ({n}):** {j}\n\n"
      let confs := configsFrom 1 (diag.metadata.take 10)
      let extra :=
        if diag.metadata.length > 10 then
          let m := toString (diag.metadata.length - 10)
          s!"... and {m} more configurations\n\n"
        else ""
      "### 🔧 Hardware & Firmware\n" ++ btPart ++ confs ++ extra
  header ++ sec1 ++ sec2 ++ sec3

/- The report produced for an ObjectID absent from all three maps. -/
def noDataReport (objId : String) : String :=
  s!"## 🔍 Diagnostic Report for ObjectID: **{objId}**\n\n" ++
    "### 📊 Signal Description\n❌ No data found\n\n" ++
    "### ⚠️ Diagnostic Information\n❌ No exception data found\n\n" ++
    "### 🔧 Hardware & Firmware\n❌ No metadata found\n\n"

/- ===== handle_query, decomposed into its ordered rules ===== -/

/- shared line "- **ObjectID {id}:** {description[:100]}" -/
def objLine (idx : DiagIndex) (objId : String) : String :=
  let d := ((lookupA objId idx.data_objects).map SignalRecord.description).getD "N/A"
  let d100 := String.mk (d.data.take 100)
  s!"- **ObjectID {objId}:** {d100}\n"

def busTypesForIdAnswer (idx : DiagIndex) (objId : String) : String × String :=
  let bts := get_bus_types_for_objectid idx objId
  if bts.isEmpty then
    (s!"❌ ObjectID {objId} not found or has no bus types", "error")
  else
    let ub := sortStr (dedupKeep bts)
    let n := toString ub.length
    let j := String.intercalate ", " ub
    (s!"✅ ObjectID **{objId}** has **{n}** bus types: {j}", "success")

def busTypesGlobalAnswer (idx : DiagIndex) : String × String :=
  let n := toString idx.bus_types.length
  let j := String.intercalate ", " (sortStr idx.bus_types)
  (s!"✅ Found **{n}** unique Bus Types in total: {j}", "success")

/- "how many ..." block (Stats queries). -/
def stats_rule (idx : DiagIndex) (ql : String) : Option (String × String) :=
  if strContains ql "how many" then
    match reSearch matchObjIdNum ql.data with
    | some objId => some (busTypesForIdAnswer idx objId)
    | none =>
      if strContains ql "bus type" || strContains ql "bustype" then
        some (busTypesGlobalAnswer idx)
      else if strContains ql "manufacturer" then
        let n := toString idx.manufacturers.length
        some (s!"✅ Found **{n}** manufacturers", "info")
      else if strContains ql "object" || strContains ql "signal" then
        let n := toString idx.data_objects.length
        some (s!"✅ Found **{n}** data objects/signals", "success")
      else if strContains ql "flash code" || strContains ql "fault" then
        let n := toString idx.flash_codes.length
        some (s!"✅ Found **{n}** flash codes", "success")
      else none
  else none

def busTypesListAnswer (idx : DiagIndex) : String × String :=
  let bts := sortStr idx.bus_types
  let n := toString bts.length
  let j := String.intercalate ", " bts
  (s!"**All Bus Types ({n}):**\n\n`{j}`", "success")

def manufacturersListAnswer (idx : DiagIndex) : String × String :=
  let ms := sortStr idx.manufacturers
  let n := toString ms.length
  let body := String.intercalate "\n" ((ms.take 20).map (fun m => "- " ++ m))
  (s!"**All Manufacturers ({n}):**\n\n" ++ body, "info")

def severitiesListAnswer (idx : DiagIndex) : String × String :=
  let sv := sortStr idx.severity_levels
  let j := String.intercalate ", " sv
  (s!"**All Severity Levels:**\n\n`{j}`", "info")

/- "list" / "show all" block (List queries). -/
def list_rule (idx : DiagIndex) (ql : String) : Option (String × String) :=
  if strContains ql "list" || strContains ql "show all" then
    if strContains ql "bus type" || strContains ql "bustype" then
      some (busTypesListAnswer idx)
    else if strContains ql "manufacturer" then
      some (manufacturersListAnswer idx)
    else if strContains ql "severity" then
      some (severitiesListAnswer idx)
    else none
  else none

/- ObjectID lookup. -/
def objectid_rule (idx : DiagIndex) (ql : String) : Option (String × String) :=
  match reSearch matchObjIdW ql.data with
  | some objId => some (format_diagnostic_report idx objId, "info")
  | none => none

/- Flash code lookup. -/
def flashcode_rule (idx : DiagIndex) (ql : String) : Option (String × String) :=
  match reSearch matchFlashW ql.data with
  | some fc =>
    match search_by_flash_code idx fc with
    | some objId => some (format_diagnostic_report idx objId, "info")
    | none => some (s!"❌ Flash code \x27{fc}\x27 not found", "error")
  | none => none

/- Bus type lookup. -/
def bustype_rule (idx : DiagIndex) (ql : String) : Option (String × String) :=
  match reSearch matchBusNum ql.data with
  | some bt =>
    let objIds := get_by_bus_type idx bt
    if objIds.isEmpty then some (s!"❌ No objects found for Bus Type {bt}", "error")
    else
      let n := toString objIds.length
      let lines := String.join ((objIds.take 5).map (objLine idx))
      let base := s!"✅ Found **{n}** objects using Bus Type {bt}\n\n" ++ lines
      let r :=
        if objIds.length > 5 then
          let m := toString (objIds.length - 5)
          base ++ s!"\n... and {m} more"
        else base
      some (r, "info")
  | none => none

def manuAnswer (idx : DiagIndex) (manufacturer : String) : String × String :=
  let objIds := get_by_manufacturer idx manufacturer
  let n := toString objIds.length
  let lines := String.join ((objIds.take 5).map (objLine idx))
  let base := s!"✅ Found **{n}** objects for **{manufacturer}**\n\n" ++ lines
  let r :=
    if objIds.length > 5 then
      let m := toString (objIds.length - 5)
      base ++ s!"\n... and {m} more"
    else base
  (r, "info")

def manuLoop (idx : DiagIndex) (term : String) : List String → Option (String × String)
  | [] => none
  | m :: rest =>
    if strContains (lowerStr m) term || strContains term (lowerStr m) then
      some (manuAnswer idx m)
    else manuLoop idx term rest

/- Manufacturer search. -/
def manufacturer_rule (idx : DiagIndex) (ql : String) : Option (String × String) :=
  if strContains ql "manufacturer" || strContains ql "cummins" || strContains ql "clever" then
    manuLoop idx (stripSpaces (replaceAllStr ql "manufacturer" "")) idx.manufacturers
  else none

/- words of length > 4 of the lowercased question. -/
def searchTerms (ql : String) : List String :=
  (splitWs ql).filter (fun w => w.length > 4)

def descrAnswer (idx : DiagIndex) (term : String) (objIds : List String) : String :=
  let n := toString objIds.length
  let lines := String.join ((objIds.take 5).map (objLine idx))
  let base := s!"✅ Found **{n}** signals matching \x27{term}\x27\n\n" ++ lines
  if objIds.length > 5 then
    let m := toString (objIds.length - 5)
    let nxt := (objIds.get? 5).getD ""
    base ++ s!"\n... and {m} more. Try \x27ObjectID {nxt}\x27 for details."
  else base

def descrLoop (idx : DiagIndex) : List String → Option (String × String)
  | [] => none
  | t :: rest =>
    let ids := search_by_description idx t
    if ids.isEmpty then descrLoop idx rest else some (descrAnswer idx t ids, "info")

/- Description search. -/
def description_rule (idx : DiagIndex) (ql : String) : Option (String × String) :=
  descrLoop idx (searchTerms ql)

def aiCues : List String := ["why", "how", "what should", "explain", "help", "troubleshoot"]

def aiLoop (idx : DiagIndex) (ai : String → String → Option String) (question : String) :
    List String → Option (String × String)
  | [] => none
  | t :: rest =>
    match search_by_description idx t with
    | [] => aiLoop idx ai question rest
    | objId :: _ =>
      match ai objId question with
      | some resp =>
        some (s!"🤖 **AI Analysis:**\n\n{resp}\n\n---\n\n**Related ObjectID:** {objId}", "success")
      | none => aiLoop idx ai question rest

/- AI fallback for complex questions. -/
def ai_rule (idx : DiagIndex) (useAI : Bool) (ai : String → String → Option String)
    (ql question : String) : Option (String × String) :=
  if useAI && aiCues.any (fun w => strContains ql w) then
    aiLoop idx ai question (searchTerms ql)
  else none

def notUnderstoodMsg : String :=
  "❌ Query not understood. Try: \x27How many bus types?\x27 or \x27Show ObjectID 12345\x27 or \x27Flash code 523\x27"

def handle_query (idx : DiagIndex) (useAI : Bool) (ai : String → String → Option String)
    (question : String) : String × String :=
  if question.data.all isPySpace then ("Please enter a question.", "warning")
  else
    match stats_rule idx (lowerStr question) with
    | some r => r
    | none =>
      match list_rule idx (lowerStr question) with
      | some r => r
      | none =>
        match objectid_rule idx (lowerStr question) with
        | some r => r
        | none =>
          match flashcode_rule idx (lowerStr question) with
          | some r => r
          | none =>
            match bustype_rule idx (lowerStr question) with
            | some r => r
            | none =>
              match manufacturer_rule idx (lowerStr question) with
              | some r => r
              | none =>
                match description_rule idx (lowerStr question) with
                | some r => r
                | none =>
                  match ai_rule idx useAI ai (lowerStr question) question with
                  | some r => r
                  | none => (notUnderstoodMsg, "error")

/- ===== Concrete inputs used by witnesses and counterexamples ===== -/

def aiNone : String → String → Option String := fun _ _ => none

def blankRaw : RawRecord :=
  { kind := RecordKind.other, objectID := "", description := "", unitText := ""
  , correctiveAction := "", flashCode := "", severityID := ""
  , manufacturerAndModel := "", firmwareVersion := "", busType := "" }

def sig300 : RawRecord :=
  { blankRaw with
    kind := RecordKind.dataObject, objectID := "300",
    description := "Engine Oil Pressure Low" }

def idx300 : DiagIndex := build_diagnostic_index [sig300]

def hw1234 : RawRecord :=
  { blankRaw with kind := RecordKind.dataPointMeta, objectID := "1234", busType := "38" }

def hw9 : RawRecord :=
  { blankRaw with kind := RecordKind.dataPointMeta, objectID := "9", busType := "47" }

def idxC3 : DiagIndex := build_diagnostic_index [hw1234, hw9]

def hwNoId : RawRecord :=
  { blankRaw with kind := RecordKind.dataPointMeta, busType := "38" }

def idxC6 : DiagIndex :=
  { emptyIdx with manufacturers :=
      ["m01","m02","m03","m04","m05","m06","m07","m08","m09","m10","m11",
       "m12","m13","m14","m15","m16","m17","m18","m19","m20","m21"] }

def sigW : RawRecord :=
  { blankRaw with
    kind := RecordKind.dataObject, objectID := "100",
    description := "Vehicle Speed", unitText := "kph" }

def faultW : RawRecord :=
  { blankRaw with
    kind := RecordKind.exceptionMeta, objectID := "100",
    correctiveAction := "Check sensor", flashCode := "77", severityID := "HIGH" }

def hwA : RawRecord :=
  { blankRaw with
    kind := RecordKind.dataPointMeta, objectID := "100",
    manufacturerAndModel := "Acme", firmwareVersion := "1.0", busType := "38" }

def hwB : RawRecord :=
  { blankRaw with
    kind := RecordKind.dataPointMeta, objectID := "100",
    manufacturerAndModel := "Acme", firmwareVersion := "1.0", busType := "47" }

def recsW : List RawRecord := [sigW, faultW, hwA, hwB, hwA]

def m38 : MetaRecord := { manufacturer := "Acme", firmware := "1.0", bus_type := "38" }

def m47 : MetaRecord := { manufacturer := "Beta", firmware := "2.0", bus_type := "47" }

def idxDup : DiagIndex :=
  { emptyIdx with metadata := [("100", [m38, m47, m38]), ("200", [m47])] }

/- filters describing the source records for one Identifier -/

def isSignalFor (id : String) (r : RawRecord) : Bool :=
  isDataObjectK r && r.objectID == id

def isFaultFor (id : String) (r : RawRecord) : Bool :=
  isExceptionK r && r.objectID == id

def isHardwareFor (id : String) (r : RawRecord) : Bool :=
  isDataPointK r && r.objectID == id

def statusOK (s : String) : Prop :=
  s = "success" ∨ s = "info" ∨ s = "warning" ∨ s = "error"

/- ===== Lemmas about the dict / set operations ===== -/

theorem lookupA_upsert_self {α : Type} (k : String) (v : α) (m : List (String × α)) :
    lookupA k (upsert k v m) = some v := by
  induction m with
  | nil => simp [upsert, lookupA]
  | cons p rest ih =>
    obtain ⟨k', v'⟩ := p
    by_cases h : k' = k
    · subst h; simp [upsert, lookupA]
    · simp [upsert, lookupA, h, ih]

theorem lookupA_upsert_ne {α : Type} (k k' : String) (v : α) (m : List (String × α))
    (h : k' ≠ k) : lookupA k (upsert k' v m) = lookupA k m := by
  induction m with
  | nil => simp [upsert, lookupA, h]
  | cons p rest ih =>
    obtain ⟨k2, v2⟩ := p
    show lookupA k (if k2 = k' then (k', v) :: rest else (k2, v2) :: upsert k' v rest) = _
    by_cases h2 : k2 = k'
    · subst h2
      rw [if_pos rfl]
      simp only [lookupA]
      rw [if_neg h, if_neg h]
    · rw [if_neg h2]
      simp only [lookupA]
      by_cases h3 : k2 = k
      · rw [if_pos h3, if_pos h3]
      · rw [if_neg h3, if_neg h3, ih]

theorem lookupA_appendEntry_self {α : Type} (k : String) (v : α) (m : List (String × List α)) :
    lookupA k (appendEntry k v m) = some ((lookupA k m).getD [] ++ [v]) := by
  induction m with
  | nil => simp [appendEntry, lookupA]
  | cons p rest ih =>
    obtain ⟨k', vs⟩ := p
    by_cases h : k' = k
    · subst h; simp [appendEntry, lookupA]
    · simp [appendEntry, lookupA, h, ih]

theorem lookupA_appendEntry_ne {α : Type} (k k' : String) (v : α) (m : List (String × List α))
    (h : k' ≠ k) : lookupA k (appendEntry k' v m) = lookupA k m := by
  induction m with
  | nil => simp [appendEntry, lookupA, h]
  | cons p rest ih =>
    obtain ⟨k2, vs⟩ := p
    show lookupA k (if k2 = k' then (k2, vs ++ [v]) :: rest else (k2, vs) :: appendEntry k' v rest)
        = _
    by_cases h2 : k2 = k'
    · rw [if_pos h2]
      simp only [lookupA]
      rw [h2, if_neg h, if_neg h]
    · rw [if_neg h2]
      simp only [lookupA]
      by_cases h3 : k2 = k
      · rw [if_pos h3, if_pos h3]
      · rw [if_neg h3, if_neg h3, ih]

theorem mem_addToSet (a v : String) (s : List String) :
    a ∈ addToSet v s ↔ a ∈ s ∨ a = v := by
  unfold addToSet
  split
  · constructor
    · exact Or.inl
    · rintro (h | rfl) <;> assumption
  · simp [List.mem_append]

/- ===== Lemmas about the build folds ===== -/

theorem lookupA_foldl_upStep {α : Type} (val : RawRecord → α) (id : String) (hid : id ≠ "") :
    ∀ (rs : List RawRecord) (m : List (String × α)),
      lookupA id (rs.foldl (upStep val) m) =
        match (rs.filter (fun r => r.objectID == id)).getLast? with
        | some r => some (val r)
        | none => lookupA id m := by
  intro rs
  induction rs using List.reverseRecOn with
  | nil => intro m; simp
  | append_singleton rs r ih =>
    intro m
    rw [List.foldl_append, List.foldl_cons, List.foldl_nil, List.filter_append]
    by_cases hr : r.objectID == id
    · have hre : r.objectID = id := by simpa using hr
      have hne : r.objectID ≠ "" := by rw [hre]; exact hid
      have hfil : List.filter (fun r' => r'.objectID == id) [r] = [r] := by
        simp [List.filter_cons, hr]
      rw [hfil, List.getLast?_concat]
      show lookupA id (upStep val (rs.foldl (upStep val) m) r) = some (val r)
      unfold upStep
      rw [if_neg hne, hre, lookupA_upsert_self]
    · have hfil : List.filter (fun r' => r'.objectID == id) [r] = [] := by
        simp [List.filter_cons, hr]
      rw [hfil, List.append_nil, ← ih m]
      show lookupA id (upStep val (rs.foldl (upStep val) m) r) = _
      unfold upStep
      split
      · rfl
      · exact lookupA_upsert_ne id r.objectID (val r) _ (by simpa using hr)

theorem lookupA_foldl_apStep {α : Type} (val : RawRecord → α) (id : String) (hid : id ≠ "") :
    ∀ (rs : List RawRecord) (m : List (String × List α)),
      (lookupA id (rs.foldl (apStep val) m)).getD [] =
        (lookupA id m).getD [] ++ (rs.filter (fun r => r.objectID == id)).map val := by
  intro rs
  induction rs with
  | nil => intro m; simp
  | cons r rest ih =>
    intro m
    rw [List.foldl_cons, ih]
    by_cases hr : r.objectID == id
    · have hre : r.objectID = id := by simpa using hr
      have hne : r.objectID ≠ "" := by rw [hre]; exact hid
      have : lookupA id (apStep val m r) = some ((lookupA id m).getD [] ++ [val r]) := by
        unfold apStep
        rw [if_neg hne, hre, lookupA_appendEntry_self]
      rw [this]
      simp [List.filter_cons, hr, List.append_assoc]
    · have : lookupA id (apStep val m r) = lookupA id m := by
        unfold apStep
        split
        · rfl
        · exact lookupA_appendEntry_ne id r.objectID (val r) _ (by simpa using hr)
      rw [this]
      simp [List.filter_cons, hr]

theorem getLast?_eq_head?_of_short {α : Type} (l : List α) (h : l.length ≤ 1) :
    l.getLast? = l.head? := by
  match l with
  | [] => rfl
  | [a] => rfl
  | a :: b :: t => simp at h

theorem filterTwice {α : Type} (p q : α → Bool) (l : List α) :
    (l.filter p).filter q = l.filter (fun a => p a && q a) := by
  induction l with
  | nil => rfl
  | cons a rest ih =>
    by_cases h1 : p a
    · by_cases h2 : q a <;> simp [List.filter_cons, h1, h2, ih]
    · simp [List.filter_cons, h1, ih]

/-- C4: building the index and looking an Identifier up with
get_complete_diagnostic recovers exactly the signal, fault and hardware data
supplied for that Identifier: the (unique) DataObjects record, the (unique)
ExceptionMetadata record, and the DataPointMetadata records in source order,
duplicates preserved. -/
theorem build_roundtrip (records : List RawRecord) (id : String)
    (hid : id ≠ "")
    (hs : (records.filter (isSignalFor id)).length ≤ 1)
    (hf : (records.filter (isFaultFor id)).length ≤ 1) :
    (get_complete_diagnostic (build_diagnostic_index records) id).data_object
        = ((records.filter (isSignalFor id)).head?).map toSignal ∧
    (get_complete_diagnostic (build_diagnostic_index records) id).exception
        = ((records.filter (isFaultFor id)).head?).map toFault ∧
    (get_complete_diagnostic (build_diagnostic_index records) id).metadata
        = (records.filter (isHardwareFor id)).map toMeta := by
  refine ⟨?_, ?_, ?_⟩
  · show lookupA id ((records.filter isDataObjectK).foldl (upStep toSignal) []) = _
    rw [lookupA_foldl_upStep toSignal id hid, filterTwice]
    rw [show records.filter (fun a => isDataObjectK a && a.objectID == id)
          = records.filter (isSignalFor id) from rfl]
    rw [getLast?_eq_head?_of_short _ hs]
    cases h : (records.filter (isSignalFor id)).head? <;> simp [h, lookupA]
  · show lookupA id ((records.filter isExceptionK).foldl (upStep toFault) []) = _
    rw [lookupA_foldl_upStep toFault id hid, filterTwice]
    rw [show records.filter (fun a => isExceptionK a && a.objectID == id)
          = records.filter (isFaultFor id) from rfl]
    rw [getLast?_eq_head?_of_short _ hf]
    cases h : (records.filter (isFaultFor id)).head? <;> simp [h, lookupA]
  · show (lookupA id ((records.filter isDataPointK).foldl (apStep toMeta) [])).getD [] = _
    rw [lookupA_foldl_apStep toMeta id hid, filterTwice]
    rw [show records.filter (fun a => isDataPointK a && a.objectID == id)
          = records.filter (isHardwareFor id) from rfl]
    simp [lookupA]

/-- C4 witness: the round trip at a concrete record set with a duplicated
hardware record. -/
theorem build_roundtrip_witness :
    (get_complete_diagnostic (build_diagnostic_index recsW) "100").data_object
        = some { description := "Vehicle Speed", unit_text := "kph" } ∧
    (get_complete_diagnostic (build_diagnostic_index recsW) "100").exception
        = some { corrective_action := "Check sensor", flash_code := "77", severity := "HIGH" } ∧
    (get_complete_diagnostic (build_diagnostic_index recsW) "100").metadata
        = [{ manufacturer := "Acme", firmware := "1.0", bus_type := "38" },
           { manufacturer := "Acme", firmware := "1.0", bus_type := "47" },
           { manufacturer := "Acme", firmware := "1.0", bus_type := "38" }] := by
  obtain ⟨h1, h2, h3⟩ := build_roundtrip recsW "100" (by decide) (by decide) (by decide)
  exact ⟨h1.trans (by decide), h2.trans (by decide), h3.trans (by decide)⟩

/- ===== C5: bus_types set completeness ===== -/

theorem mem_foldl_stepBts :
    ∀ (rs : List RawRecord) (s : List String) (x : String),
      x ∈ rs.foldl stepBts s ↔
        x ∈ s ∨ ∃ r ∈ rs, r.objectID ≠ "" ∧ r.busType ≠ "" ∧ r.busType = x := by
  intro rs
  induction rs with
  | nil => simp
  | cons r rest ih =>
    intro s x
    rw [List.foldl_cons, ih]
    have hstep : x ∈ stepBts s r ↔
        x ∈ s ∨ (r.objectID ≠ "" ∧ r.busType ≠ "" ∧ r.busType = x) := by
      unfold stepBts
      split
      · rename_i h1
        simp [h1]
      · split
        · rename_i h1 h2
          simp [h2]
        · rename_i h1 h2
          rw [mem_addToSet]
          constructor
          · rintro (h | h)
            · exact Or.inl h
            · exact Or.inr ⟨h1, h2, h.symm⟩
          · rintro (h | ⟨_, _, h⟩)
            · exact Or.inl h
            · exact Or.inr h.symm
    rw [hstep]
    simp only [List.mem_cons]
    constructor
    · rintro ((h | h) | ⟨r', hr', h⟩)
      · exact Or.inl h
      · exact Or.inr ⟨r, Or.inl rfl, h⟩
      · exact Or.inr ⟨r', Or.inr hr', h⟩
    · rintro (h | ⟨r', (rfl | hr'), h⟩)
      · exact Or.inl (Or.inl h)
      · exact Or.inl (Or.inr h)
      · exact Or.inr ⟨r', hr', h⟩

/-- C5 amended: a string is in index.busTypes iff it is the non-empty busType
value of some DataPointMetadata record whose ObjectID attribute is non-empty
(records with a missing ObjectID are dropped whole, including their busType);
values are compared literally, with no normalization. -/
theorem bus_types_complete (records : List RawRecord) (x : String) :
    x ∈ (build_diagnostic_index records).bus_types ↔
      ∃ r ∈ records,
        r.kind = RecordKind.dataPointMeta ∧ r.objectID ≠ "" ∧ r.busType = x ∧ x ≠ "" := by
  show x ∈ (records.filter isDataPointK).foldl stepBts [] ↔ _
  rw [mem_foldl_stepBts]
  constructor
  · rintro (h | ⟨r, hr, h1, h2, h3⟩)
    · simp at h
    · have hm := List.mem_filter.mp hr
      refine ⟨r, hm.1, by simpa [isDataPointK] using hm.2, h1, h3, ?_⟩
      rw [← h3]; exact h2
  · rintro ⟨r, hr, hk, h1, h2, h3⟩
    refine Or.inr ⟨r, List.mem_filter.mpr ⟨hr, by simp [isDataPointK, hk]⟩, h1, ?_, h2⟩
    rw [h2]; exact h3

/-- C5 counterexample: a DataPointMetadata record with busType "38" but an
empty ObjectID is dropped, so "38" does not reach index.busTypes even though
it is a non-empty busType value of a hardware record of the input. -/
theorem bus_types_drops_empty_id :
    hwNoId.kind = RecordKind.dataPointMeta ∧ hwNoId.busType = "38" ∧
      "38" ∉ (build_diagnostic_index [hwNoId]).bus_types := by
  refine ⟨rfl, rfl, ?_⟩
  decide

/- ===== C10: the filter scans report each Identifier at most once ===== -/

theorem foldl_append_filter (f : String × List MetaRecord → Bool) :
    ∀ (l : List (String × List MetaRecord)) (acc : List String),
      l.foldl (fun rs p => if f p then rs ++ [p.1] else rs) acc
        = acc ++ (l.filter f).map Prod.fst := by
  intro l
  induction l with
  | nil => simp
  | cons p rest ih =>
    intro acc
    rw [List.foldl_cons]
    by_cases h : f p <;> simp [h, ih, List.filter_cons]

/-- C10: get_by_bus_type and get_by_manufacturer return the list of metadata
keys having at least one matching hardware record — each Identifier at most
once, however many of its records match — so the reported count is the number
of distinct matching Identifiers, not of matching hardware records. -/
theorem filter_scans_distinct (idx : DiagIndex) (bt manu : String)
    (hk : (idx.metadata.map Prod.fst).Nodup) :
    get_by_bus_type idx bt = (idx.metadata.filter (fun p => busTypeHits bt p.2)).map Prod.fst ∧
    (get_by_bus_type idx bt).Nodup ∧
    (get_by_bus_type idx bt).length
        = (idx.metadata.filter (fun p => busTypeHits bt p.2)).length ∧
    get_by_manufacturer idx manu
        = (idx.metadata.filter (fun p => manuHits manu p.2)).map Prod.fst ∧
    (get_by_manufacturer idx manu).Nodup ∧
    (get_by_manufacturer idx manu).length
        = (idx.metadata.filter (fun p => manuHits manu p.2)).length := by
  have h1 : get_by_bus_type idx bt
      = (idx.metadata.filter (fun p => busTypeHits bt p.2)).map Prod.fst := by
    unfold get_by_bus_type
    rw [foldl_append_filter (fun p => busTypeHits bt p.2)]
    simp
  have h2 : get_by_manufacturer idx manu
      = (idx.metadata.filter (fun p => manuHits manu p.2)).map Prod.fst := by
    unfold get_by_manufacturer
    rw [foldl_append_filter (fun p => manuHits manu p.2)]
    simp
  have hn1 : (get_by_bus_type idx bt).Nodup := by
    rw [h1]
    exact hk.sublist ((List.filter_sublist _).map Prod.fst)
  have hn2 : (get_by_manufacturer idx manu).Nodup := by
    rw [h2]
    exact hk.sublist ((List.filter_sublist _).map Prod.fst)
  refine ⟨h1, hn1, ?_, h2, hn2, ?_⟩
  · rw [h1, List.length_map]
  · rw [h2, List.length_map]

/-- C10 witness: an Identifier with two hardware records on bus 38 is reported
once. -/
theorem filter_scans_distinct_witness :
    get_by_bus_type idxDup "38" = ["100"] ∧ (get_by_bus_type idxDup "38").Nodup := by
  have h := filter_scans_distinct idxDup "38" "acme" (by decide)
  exact ⟨h.1.trans (by decide), h.2.1⟩

/- ===== Statuses produced by each rule ===== -/

theorem busTypesForIdAnswer_status (idx : DiagIndex) (t : String) :
    (busTypesForIdAnswer idx t).2 = "error" ∨ (busTypesForIdAnswer idx t).2 = "success" := by
  unfold busTypesForIdAnswer
  dsimp only
  split
  · exact Or.inl rfl
  · exact Or.inr rfl

theorem stats_rule_status (idx : DiagIndex) (ql : String) (r : String × String)
    (h : stats_rule idx ql = some r) : statusOK r.2 := by
  unfold stats_rule at h
  split at h
  · split at h
    · injection h with h
      subst h
      rcases busTypesForIdAnswer_status idx _ with h | h
      · exact Or.inr (Or.inr (Or.inr h))
      · exact Or.inl h
    · split_ifs at h <;> injection h with h <;> subst h <;> simp [statusOK, busTypesGlobalAnswer]
  · exact Option.noConfusion h

theorem list_rule_status (idx : DiagIndex) (ql : String) (r : String × String)
    (h : list_rule idx ql = some r) : statusOK r.2 := by
  unfold list_rule at h
  split at h
  · split_ifs at h <;> injection h with h <;> subst h <;>
      simp [statusOK, busTypesListAnswer, manufacturersListAnswer, severitiesListAnswer]
  · exact Option.noConfusion h

theorem objectid_rule_status (idx : DiagIndex) (ql : String) (r : String × String)
    (h : objectid_rule idx ql = some r) : statusOK r.2 := by
  unfold objectid_rule at h
  split at h
  · injection h with h
    subst h
    exact Or.inr (Or.inl rfl)
  · exact Option.noConfusion h

theorem flashcode_rule_status (idx : DiagIndex) (ql : String) (r : String × String)
    (h : flashcode_rule idx ql = some r) : statusOK r.2 := by
  unfold flashcode_rule at h
  split at h
  · split at h <;> injection h with h <;> subst h <;> simp [statusOK]
  · exact Option.noConfusion h

theorem bustype_rule_status (idx : DiagIndex) (ql : String) (r : String × String)
    (h : bustype_rule idx ql = some r) : statusOK r.2 := by
  unfold bustype_rule at h
  split at h
  · dsimp only at h
    split at h <;> injection h with h <;> subst h <;> simp [statusOK]
  · exact Option.noConfusion h

theorem manuLoop_status (idx : DiagIndex) (term : String) :
    ∀ (ms : List String) (r : String × String), manuLoop idx term ms = some r → statusOK r.2 := by
  intro ms
  induction ms with
  | nil => intro r h; exact Option.noConfusion h
  | cons m rest ih =>
    intro r h
    rw [manuLoop] at h
    split_ifs at h
    · injection h with h
      subst h
      simp [statusOK, manuAnswer]
    · exact ih r h

theorem manufacturer_rule_status (idx : DiagIndex) (ql : String) (r : String × String)
    (h : manufacturer_rule idx ql = some r) : statusOK r.2 := by
  unfold manufacturer_rule at h
  split_ifs at h
  exact manuLoop_status idx _ _ r h

theorem descrLoop_status (idx : DiagIndex) :
    ∀ (ts : List String) (r : String × String), descrLoop idx ts = some r → statusOK r.2 := by
  intro ts
  induction ts with
  | nil => intro r h; exact Option.noConfusion h
  | cons t rest ih =>
    intro r h
    rw [descrLoop] at h
    split_ifs at h
    · exact ih r h
    · injection h with h
      subst h
      exact Or.inr (Or.inl rfl)

theorem description_rule_status (idx : DiagIndex) (ql : String) (r : String × String)
    (h : description_rule idx ql = some r) : statusOK r.2 :=
  descrLoop_status idx _ r h

theorem aiLoop_status (idx : DiagIndex) (ai : String → String → Option String) (q : String) :
    ∀ (ts : List String) (r : String × String), aiLoop idx ai q ts = some r → statusOK r.2 := by
  intro ts
  induction ts with
  | nil => intro r h; exact Option.noConfusion h
  | cons t rest ih =>
    intro r h
    rw [aiLoop] at h
    split at h
    · exact ih r h
    · split at h
      · injection h with h
        subst h
        exact Or.inl rfl
      · exact ih r h

theorem ai_rule_status (idx : DiagIndex) (useAI : Bool) (ai : String → String → Option String)
    (ql q : String) (r : String × String) (h : ai_rule idx useAI ai ql q = some r) :
    statusOK r.2 := by
  unfold ai_rule at h
  split_ifs at h
  exact aiLoop_status idx ai q _ r h

/- ===== Dispatch lemmas for handle_query ===== -/

theorem handle_query_stats_some (idx : DiagIndex) (useAI : Bool)
    (ai : String → String → Option String) (q : String) (r : String × String)
    (h0 : q.data.all isPySpace = false)
    (h1 : stats_rule idx (lowerStr q) = some r) :
    handle_query idx useAI ai q = r := by
  unfold handle_query
  simp [h0, h1]

theorem handle_query_list_some (idx : DiagIndex) (useAI : Bool)
    (ai : String → String → Option String) (q : String) (r : String × String)
    (h0 : q.data.all isPySpace = false)
    (h1 : stats_rule idx (lowerStr q) = none)
    (h2 : list_rule idx (lowerStr q) = some r) :
    handle_query idx useAI ai q = r := by
  unfold handle_query
  simp [h0, h1, h2]

theorem handle_query_objectid_some (idx : DiagIndex) (useAI : Bool)
    (ai : String → String → Option String) (q t : String)
    (h0 : q.data.all isPySpace = false)
    (h1 : stats_rule idx (lowerStr q) = none)
    (h2 : list_rule idx (lowerStr q) = none)
    (ht : reSearch matchObjIdW (lowerStr q).data = some t) :
    handle_query idx useAI ai q = (format_diagnostic_report idx t, "info") := by
  have h3 : objectid_rule idx (lowerStr q) = some (format_diagnostic_report idx t, "info") := by
    unfold objectid_rule
    rw [ht]
  unfold handle_query
  simp [h0, h1, h2, h3]

theorem handle_query_descr_some (idx : DiagIndex) (useAI : Bool)
    (ai : String → String → Option String) (q : String) (r : String × String)
    (h0 : q.data.all isPySpace = false)
    (h1 : stats_rule idx (lowerStr q) = none)
    (h2 : list_rule idx (lowerStr q) = none)
    (h3 : objectid_rule idx (lowerStr q) = none)
    (h4 : flashcode_rule idx (lowerStr q) = none)
    (h5 : bustype_rule idx (lowerStr q) = none)
    (h6 : manufacturer_rule idx (lowerStr q) = none)
    (h7 : description_rule idx (lowerStr q) = some r) :
    handle_query idx useAI ai q = r := by
  unfold handle_query
  simp [h0, h1, h2, h3, h4, h5, h6, h7]

theorem handle_query_fallthrough (idx : DiagIndex) (useAI : Bool)
    (ai : String → String → Option String) (q : String)
    (h0 : q.data.all isPySpace = false)
    (h1 : stats_rule idx (lowerStr q) = none)
    (h2 : list_rule idx (lowerStr q) = none)
    (h3 : objectid_rule idx (lowerStr q) = none)
    (h4 : flashcode_rule idx (lowerStr q) = none)
    (h5 : bustype_rule idx (lowerStr q) = none)
    (h6 : manufacturer_rule idx (lowerStr q) = none)
    (h7 : description_rule idx (lowerStr q) = none)
    (h8 : ai_rule idx useAI ai (lowerStr q) q = none) :
    handle_query idx useAI ai q = (notUnderstoodMsg, "error") := by
  unfold handle_query
  simp [h0, h1, h2, h3, h4, h5, h6, h7, h8]

/-- C7: handle_query is a total function of (question, index): its status is
always one of success, info, warning, error, and whenever the question is not
blank and no rule produces an answer it returns exactly the fixed
"Query not understood" Error payload. -/
theorem handle_query_total (idx : DiagIndex) (useAI : Bool)
    (ai : String → String → Option String) (q : String) :
    statusOK (handle_query idx useAI ai q).2 ∧
    (q.data.all isPySpace = false →
     stats_rule idx (lowerStr q) = none →
     list_rule idx (lowerStr q) = none →
     objectid_rule idx (lowerStr q) = none →
     flashcode_rule idx (lowerStr q) = none →
     bustype_rule idx (lowerStr q) = none →
     manufacturer_rule idx (lowerStr q) = none →
     description_rule idx (lowerStr q) = none →
     ai_rule idx useAI ai (lowerStr q) q = none →
     handle_query idx useAI ai q = (notUnderstoodMsg, "error")) := by
  constructor
  · cases h0 : q.data.all isPySpace with
    | true =>
      have hw : handle_query idx useAI ai q = ("Please enter a question.", "warning") := by
        unfold handle_query
        simp [h0]
      rw [hw]
      exact Or.inr (Or.inr (Or.inl rfl))
    | false =>
      cases h1 : stats_rule idx (lowerStr q) with
      | some r =>
        rw [handle_query_stats_some idx useAI ai q r h0 h1]
        exact stats_rule_status idx _ r h1
      | none =>
      cases h2 : list_rule idx (lowerStr q) with
      | some r =>
        rw [handle_query_list_some idx useAI ai q r h0 h1 h2]
        exact list_rule_status idx _ r h2
      | none =>
      cases h3 : objectid_rule idx (lowerStr q) with
      | some r =>
        have : handle_query idx useAI ai q = r := by
          unfold handle_query
          simp [h0, h1, h2, h3]
        rw [this]
        exact objectid_rule_status idx _ r h3
      | none =>
      cases h4 : flashcode_rule idx (lowerStr q) with
      | some r =>
        have : handle_query idx useAI ai q = r := by
          unfold handle_query
          simp [h0, h1, h2, h3, h4]
        rw [this]
        exact flashcode_rule_status idx _ r h4
      | none =>
      cases h5 : bustype_rule idx (lowerStr q) with
      | some r =>
        have : handle_query idx useAI ai q = r := by
          unfold handle_query
          simp [h0, h1, h2, h3, h4, h5]
        rw [this]
        exact bustype_rule_status idx _ r h5
      | none =>
      cases h6 : manufacturer_rule idx (lowerStr q) with
      | some r =>
        have : handle_query idx useAI ai q = r := by
          unfold handle_query
          simp [h0, h1, h2, h3, h4, h5, h6]
        rw [this]
        exact manufacturer_rule_status idx _ r h6
      | none =>
      cases h7 : description_rule idx (lowerStr q) with
      | some r =>
        rw [handle_query_descr_some idx useAI ai q r h0 h1 h2 h3 h4 h5 h6 h7]
        exact description_rule_status idx _ r h7
      | none =>
      cases h8 : ai_rule idx useAI ai (lowerStr q) q with
      | some r =>
        have : handle_query idx useAI ai q = r := by
          unfold handle_query
          simp [h0, h1, h2, h3, h4, h5, h6, h7, h8]
        rw [this]
        exact ai_rule_status idx useAI ai _ q r h8
      | none =>
        rw [handle_query_fallthrough idx useAI ai q h0 h1 h2 h3 h4 h5 h6 h7 h8]
        exact Or.inr (Or.inr (Or.inr rfl))
  · intro h0 h1 h2 h3 h4 h5 h6 h7 h8
    exact handle_query_fallthrough idx useAI ai q h0 h1 h2 h3 h4 h5 h6 h7 h8

/-- C7 witness: at a concrete unmatched question the fallback fires. -/
theorem handle_query_total_witness :
    handle_query emptyIdx false aiNone "zzz" = (notUnderstoodMsg, "error") :=
  (handle_query_total emptyIdx false aiNone "zzz").2 (by decide) (by decide) (by decide)
    (by decide) (by decide) (by decide) (by decide) (by decide) (by decide)

/- ===== Guard lemmas: when a rule cannot fire ===== -/

theorem stats_rule_none (idx : DiagIndex) (ql : String)
    (h : strContains ql "how many" = false) : stats_rule idx ql = none := by
  unfold stats_rule
  simp [h]

theorem list_rule_none (idx : DiagIndex) (ql : String)
    (h1 : strContains ql "list" = false) (h2 : strContains ql "show all" = false) :
    list_rule idx ql = none := by
  unfold list_rule
  simp [h1, h2]

theorem objectid_rule_none (idx : DiagIndex) (ql : String)
    (h : reSearch matchObjIdW ql.data = none) : objectid_rule idx ql = none := by
  unfold objectid_rule
  rw [h]

theorem flashcode_rule_none (idx : DiagIndex) (ql : String)
    (h : reSearch matchFlashW ql.data = none) : flashcode_rule idx ql = none := by
  unfold flashcode_rule
  rw [h]

theorem bustype_rule_none (idx : DiagIndex) (ql : String)
    (h : reSearch matchBusNum ql.data = none) : bustype_rule idx ql = none := by
  unfold bustype_rule
  rw [h]

theorem manufacturer_rule_none (idx : DiagIndex) (ql : String)
    (h1 : strContains ql "manufacturer" = false) (h2 : strContains ql "cummins" = false)
    (h3 : strContains ql "clever" = false) : manufacturer_rule idx ql = none := by
  unfold manufacturer_rule
  simp [h1, h2, h3]

theorem descrLoop_none (idx : DiagIndex) :
    ∀ (ts : List String), (∀ t ∈ ts, search_by_description idx t = []) →
      descrLoop idx ts = none := by
  intro ts
  induction ts with
  | nil => intro _; rfl
  | cons t rest ih =>
    intro h
    have ht : search_by_description idx t = [] := h t (List.mem_cons_self t rest)
    simp [descrLoop, ht, ih (fun u hu => h u (List.mem_cons_of_mem t hu))]

theorem description_rule_none_empty (idx : DiagIndex) (ql : String)
    (h : searchTerms ql = []) : description_rule idx ql = none := by
  unfold description_rule
  rw [h]
  rfl

theorem ai_rule_none_noCues (idx : DiagIndex) (useAI : Bool)
    (ai : String → String → Option String) (ql q : String)
    (h : aiCues.any (fun w => strContains ql w) = false) : ai_rule idx useAI ai ql q = none := by
  unfold ai_rule
  simp [h]

/- ===== C8: there is no greeting rule ===== -/

/-- C8 counterexample: the greeting "hi" does not produce Success with a help
message; it matches no rule and falls through to the "not understood" Error. -/
theorem greeting_hi_not_success :
    handle_query emptyIdx false aiNone "hi" = (notUnderstoodMsg, "error") ∧
    (handle_query emptyIdx false aiNone "hi").2 ≠ "success" := by
  exact ⟨by decide, by decide⟩

/-- C8 amended: handle_query has no greeting rule: on any index, with or
without the AI collaborator, the greetings "hi" and "hey" (which contain no
rule cue and no word longer than four characters) fall through every rule and
yield the fixed "Query not understood" Error result. -/
theorem no_greeting_rule (idx : DiagIndex) (useAI : Bool)
    (ai : String → String → Option String) :
    handle_query idx useAI ai "hi" = (notUnderstoodMsg, "error") ∧
    handle_query idx useAI ai "hey" = (notUnderstoodMsg, "error") := by
  constructor
  · exact handle_query_fallthrough idx useAI ai "hi" (by decide)
      (stats_rule_none idx _ (by decide))
      (list_rule_none idx _ (by decide) (by decide))
      (objectid_rule_none idx _ (by decide))
      (flashcode_rule_none idx _ (by decide))
      (bustype_rule_none idx _ (by decide))
      (manufacturer_rule_none idx _ (by decide) (by decide) (by decide))
      (description_rule_none_empty idx _ (by decide))
      (ai_rule_none_noCues idx useAI ai _ "hi" (by decide))
  · exact handle_query_fallthrough idx useAI ai "hey" (by decide)
      (stats_rule_none idx _ (by decide))
      (list_rule_none idx _ (by decide) (by decide))
      (objectid_rule_none idx _ (by decide))
      (flashcode_rule_none idx _ (by decide))
      (bustype_rule_none idx _ (by decide))
      (manufacturer_rule_none idx _ (by decide) (by decide) (by decide))
      (description_rule_none_empty idx _ (by decide))
      (ai_rule_none_noCues idx useAI ai _ "hey" (by decide))

/- ===== C1: identifier lookup of an unknown ObjectID ===== -/

/-- C1 counterexample: with no record for "999", "show objectid 999" returns
status "info" (a report whose sections say no data was found), not "error",
and its payload does not contain "not found". -/
theorem objectid_999_is_info :
    (handle_query emptyIdx false aiNone "show objectid 999").2 = "info" ∧
    (handle_query emptyIdx false aiNone "show objectid 999").2 ≠ "error" ∧
    strContains (handle_query emptyIdx false aiNone "show objectid 999").1 "not found"
      = false := by
  exact ⟨by decide, by decide, by decide⟩

/-- C1 amended: when the question reaches the ObjectID-lookup rule and the
extracted Identifier is present in none of the three maps, handle_query
returns status Info with a composite report whose three sections each carry a
"No ... found" marker (never an Error, "not found" result). -/
theorem objectid_lookup_missing (idx : DiagIndex) (useAI : Bool)
    (ai : String → String → Option String) (q t : String)
    (h0 : q.data.all isPySpace = false)
    (h1 : stats_rule idx (lowerStr q) = none)
    (h2 : list_rule idx (lowerStr q) = none)
    (ht : reSearch matchObjIdW (lowerStr q).data = some t)
    (hsig : lookupA t idx.data_objects = none)
    (hexc : lookupA t idx.exceptions = none)
    (hmeta : lookupA t idx.metadata = none) :
    handle_query idx useAI ai q = (noDataReport t, "info") := by
  rw [handle_query_objectid_some idx useAI ai q t h0 h1 h2 ht]
  have hrep : format_diagnostic_report idx t = noDataReport t := by
    unfold format_diagnostic_report get_complete_diagnostic noDataReport
    simp [hsig, hexc, hmeta]
  rw [hrep]

/-- C1 witness: the amended behaviour at the concrete spec example. -/
theorem objectid_lookup_missing_witness :
    handle_query emptyIdx false aiNone "show objectid 999" = (noDataReport "999", "info") :=
  objectid_lookup_missing emptyIdx false aiNone "show objectid 999" "999" (by decide)
    (by decide) (by decide) (by decide) (by decide) (by decide) (by decide)

/- ===== C3: "how many" with an embedded identifier ===== -/

/-- C3 counterexample: "how many bus types for 1234" names the bus-types
category and contains the 4-digit Identifier token 1234 (which has hardware
with busType 38 in idxC3), yet handle_query answers with the global bus-type
count, not the per-Identifier lookup: the trigger is a literal "objectid"
marker, not a bare numeral. -/
theorem bus_types_count_ignores_bare_numeral :
    handle_query idxC3 false aiNone "how many bus types for 1234"
        = ("✅ Found **2** unique Bus Types in total: 38, 47", "success") ∧
    (handle_query idxC3 false aiNone "how many bus types for 1234").1
        ≠ "✅ ObjectID **1234** has **1** bus types: 38" := by
  exact ⟨by decide, by decide⟩

/-- C3 amended: inside the "how many" rule the per-Identifier branch fires
exactly when the lowercased question matches `objectid[:\s]+(\d+)` (a literal
"objectid" marker followed by a digit token of any length, category cues
ignored); it returns Success with the distinct bus types of that Identifier
when any exist and Error "not found or has no bus types" otherwise. Without
that marker, a bus-types category cue yields Success with the size and full
sorted list of index.bus_types. -/
theorem bus_types_count_rule (idx : DiagIndex) (useAI : Bool)
    (ai : String → String → Option String) (q : String)
    (h0 : q.data.all isPySpace = false)
    (hhm : strContains (lowerStr q) "how many" = true) :
    (∀ t, reSearch matchObjIdNum (lowerStr q).data = some t →
      handle_query idx useAI ai q = busTypesForIdAnswer idx t ∧
      (get_bus_types_for_objectid idx t = [] → (busTypesForIdAnswer idx t).2 = "error") ∧
      (get_bus_types_for_objectid idx t ≠ [] → (busTypesForIdAnswer idx t).2 = "success")) ∧
    (reSearch matchObjIdNum (lowerStr q).data = none →
      (strContains (lowerStr q) "bus type" || strContains (lowerStr q) "bustype") = true →
      handle_query idx useAI ai q = busTypesGlobalAnswer idx) := by
  constructor
  · intro t ht
    have hs : stats_rule idx (lowerStr q) = some (busTypesForIdAnswer idx t) := by
      unfold stats_rule
      simp [hhm, ht]
    refine ⟨handle_query_stats_some idx useAI ai q _ h0 hs, ?_, ?_⟩
    · intro he
      simp [busTypesForIdAnswer, he]
    · intro hne
      have hf : (get_bus_types_for_objectid idx t).isEmpty = false := by
        cases hc : get_bus_types_for_objectid idx t
        · exact absurd hc hne
        · rfl
      simp [busTypesForIdAnswer, hf]
  · intro hn hbt
    have hs : stats_rule idx (lowerStr q) = some (busTypesGlobalAnswer idx) := by
      unfold stats_rule
      simp [hhm, hn, hbt]
    exact handle_query_stats_some idx useAI ai q _ h0 hs

/-- C3 witness: with the literal marker, the per-Identifier branch fires. -/
theorem bus_types_count_rule_witness :
    handle_query idxC3 false aiNone "how many bus types objectid 1234"
        = ("✅ ObjectID **1234** has **1** bus types: 38", "success") := by
  have h := (bus_types_count_rule idxC3 false aiNone "how many bus types objectid 1234"
      (by decide) (by decide)).1 "1234" (by decide)
  exact h.1.trans (by decide)

/- ===== C6: enumeration rule truncation ===== -/

theorem insortStr_length (x : String) : ∀ l, (insortStr x l).length = l.length + 1 := by
  intro l
  induction l with
  | nil => rfl
  | cons y ys ih =>
    rw [insortStr]
    split
    · simp
    · simp [ih]

theorem sortStr_length (l : List String) : (sortStr l).length = l.length := by
  unfold sortStr
  induction l with
  | nil => rfl
  | cons x xs ih => simp [List.foldr_cons, insortStr_length, ih]

/-- C6 counterexample: with 21 manufacturers (below the claimed cap of 50)
"list manufacturers" shows only the first 20 sorted entries, with no
"...and N more" suffix — though the reported count 21 is the true total. -/
theorem list_manufacturers_truncates_at_20 :
    handle_query idxC6 false aiNone "list manufacturers"
        = ("**All Manufacturers (21):**\n\n- m01\n- m02\n- m03\n- m04\n- m05\n- m06\n- m07\n- m08\n- m09\n- m10\n- m11\n- m12\n- m13\n- m14\n- m15\n- m16\n- m17\n- m18\n- m19\n- m20",
           "info") ∧
    strContains (handle_query idxC6 false aiNone "list manufacturers").1 "m21" = false ∧
    strContains (handle_query idxC6 false aiNone "list manufacturers").1 "more" = false := by
  exact ⟨by decide, by decide, by decide⟩

/-- C6 amended: under a list cue, the bus-types enumeration returns the full
sorted list uncapped; the manufacturers enumeration returns the first 20
sorted entries with no "...and N more" suffix, while the count in its header
is the length of the full sorted list, which equals the true total; the
severities enumeration returns the full sorted list uncapped. -/
theorem list_rule_shapes (idx : DiagIndex) (useAI : Bool)
    (ai : String → String → Option String) (q : String)
    (h0 : q.data.all isPySpace = false)
    (h1 : stats_rule idx (lowerStr q) = none)
    (hl : (strContains (lowerStr q) "list" || strContains (lowerStr q) "show all") = true) :
    ((strContains (lowerStr q) "bus type" || strContains (lowerStr q) "bustype") = true →
      handle_query idx useAI ai q = busTypesListAnswer idx) ∧
    ((strContains (lowerStr q) "bus type" || strContains (lowerStr q) "bustype") = false →
      strContains (lowerStr q) "manufacturer" = true →
      handle_query idx useAI ai q = manufacturersListAnswer idx) ∧
    ((strContains (lowerStr q) "bus type" || strContains (lowerStr q) "bustype") = false →
      strContains (lowerStr q) "manufacturer" = false →
      strContains (lowerStr q) "severity" = true →
      handle_query idx useAI ai q = severitiesListAnswer idx) ∧
    (sortStr idx.manufacturers).length = idx.manufacturers.length ∧
    (sortStr idx.severity_levels).length = idx.severity_levels.length ∧
    (sortStr idx.bus_types).length = idx.bus_types.length := by
  refine ⟨?_, ?_, ?_, sortStr_length idx.manufacturers, sortStr_length idx.severity_levels,
    sortStr_length idx.bus_types⟩
  · intro hbt
    have hs : list_rule idx (lowerStr q) = some (busTypesListAnswer idx) := by
      unfold list_rule
      simp [hl, hbt]
    exact handle_query_list_some idx useAI ai q _ h0 h1 hs
  · intro hbt hman
    have hs : list_rule idx (lowerStr q) = some (manufacturersListAnswer idx) := by
      unfold list_rule
      simp [hl, hbt, hman]
    exact handle_query_list_some idx useAI ai q _ h0 h1 hs
  · intro hbt hman hsev
    have hs : list_rule idx (lowerStr q) = some (severitiesListAnswer idx) := by
      unfold list_rule
      simp [hl, hbt, hman, hsev]
    exact handle_query_list_some idx useAI ai q _ h0 h1 hs

/-- C6 witness: the manufacturer enumeration branch at a concrete index. -/
theorem list_rule_shapes_witness :
    handle_query idxC6 false aiNone "list manufacturers" = manufacturersListAnswer idxC6 :=
  (list_rule_shapes idxC6 false aiNone "list manufacturers" (by decide) (by decide)
      (by decide)).2.1 (by decide) (by decide)

/- ===== C2: description substring search ===== -/

theorem descrLoop_skip (idx : DiagIndex) :
    ∀ (pre rest : List String), (∀ u ∈ pre, search_by_description idx u = []) →
      descrLoop idx (pre ++ rest) = descrLoop idx rest := by
  intro pre
  induction pre with
  | nil => intro rest _; rfl
  | cons u us ih =>
    intro rest h
    have hu : search_by_description idx u = [] := h u (List.mem_cons_self u us)
    rw [List.cons_append]
    rw [show descrLoop idx (u :: (us ++ rest)) = descrLoop idx (us ++ rest) from by
      simp [descrLoop, hu]]
    exact ih rest (fun v hv => h v (List.mem_cons_of_mem u hv))

/-- C2 counterexample: on the index holding signal 300
"Engine Oil Pressure Low", the spec example "search for oil" does not return
Info with one match: "oil" (3 letters) is never a candidate term, while
"search" (not stoplisted in the code) matches nothing, so the query falls
through to the "not understood" Error. -/
theorem search_for_oil_not_understood :
    handle_query idx300 false aiNone "search for oil" = (notUnderstoodMsg, "error") ∧
    (handle_query idx300 false aiNone "search for oil").2 ≠ "info" := by
  exact ⟨by decide, by decide⟩

/-- C2 amended: the description search tokenizes the lowercased question into
the words of length > 4 in order, with no stoplist ("search" is itself a
candidate; "show"/"find" drop out only by length); for the first candidate
term with at least one case-insensitive substring match against a signal
description it returns Info with the full match count (and up to 5 listed
matches). -/
theorem description_search_first_term (idx : DiagIndex) (useAI : Bool)
    (ai : String → String → Option String) (q t : String) (pre post : List String)
    (h0 : q.data.all isPySpace = false)
    (h1 : stats_rule idx (lowerStr q) = none)
    (h2 : list_rule idx (lowerStr q) = none)
    (h3 : objectid_rule idx (lowerStr q) = none)
    (h4 : flashcode_rule idx (lowerStr q) = none)
    (h5 : bustype_rule idx (lowerStr q) = none)
    (h6 : manufacturer_rule idx (lowerStr q) = none)
    (hterms : searchTerms (lowerStr q) = pre ++ t :: post)
    (hpre : ∀ u ∈ pre, search_by_description idx u = [])
    (hmatch : search_by_description idx t ≠ []) :
    handle_query idx useAI ai q
        = (descrAnswer idx t (search_by_description idx t), "info") := by
  have hf : (search_by_description idx t).isEmpty = false := by
    cases hc : search_by_description idx t
    · exact absurd hc hmatch
    · rfl
  have h7 : description_rule idx (lowerStr q)
      = some (descrAnswer idx t (search_by_description idx t), "info") := by
    unfold description_rule
    rw [hterms, descrLoop_skip idx pre _ hpre]
    simp [descrLoop, hf]
  exact handle_query_descr_some idx useAI ai q _ h0 h1 h2 h3 h4 h5 h6 h7

/-- C2 witness: "search for pressure" matches on the second candidate term
("search" matched nothing) and reports one match for ObjectID 300. -/
theorem description_search_first_term_witness :
    handle_query idx300 false aiNone "search for pressure"
        = ("✅ Found **1** signals matching \x27pressure\x27\n\n- **ObjectID 300:** Engine Oil Pressure Low\n",
           "info") := by
  have h := description_search_first_term idx300 false aiNone "search for pressure" "pressure"
      ["search"] [] (by decide) (by decide) (by decide) (by decide) (by decide) (by decide)
      (by decide) (by decide) (by decide) (by decide)
  exact h.trans (by decide)

/- ===== C9: extracted tokens come from the lowercased question ===== -/

theorem stripLit_mem : ∀ (pat l r : List Char), stripLit pat l = some r → ∀ c ∈ r, c ∈ l := by
  intro pat
  induction pat with
  | nil =>
    intro l r h c hc
    injection h with h
    subst h
    exact hc
  | cons p ps ih =>
    intro l r h c hc
    cases l with
    | nil => exact Option.noConfusion h
    | cons a as =>
      simp only [stripLit] at h
      split_ifs at h
      exact List.mem_cons_of_mem a (ih as r h c hc)

theorem takeRun_sub (p : Char → Bool) :
    ∀ (l : List Char),
      (∀ c ∈ (takeRun p l).1, c ∈ l) ∧ (∀ c ∈ (takeRun p l).2, c ∈ l) := by
  intro l
  induction l with
  | nil =>
    exact ⟨fun c hc => by simp [takeRun] at hc, fun c hc => by simp [takeRun] at hc⟩
  | cons a as ih =>
    by_cases hp : p a
    · have h1 : takeRun p (a :: as) = (a :: (takeRun p as).1, (takeRun p as).2) := by
        simp [takeRun, hp]
      refine ⟨?_, ?_⟩
      · intro c hc
        rw [h1] at hc
        cases List.mem_cons.mp hc with
        | inl h => exact h ▸ List.mem_cons_self a as
        | inr h => exact List.mem_cons_of_mem a (ih.1 c h)
      · intro c hc
        rw [h1] at hc
        exact List.mem_cons_of_mem a (ih.2 c hc)
    · have h1 : takeRun p (a :: as) = ([], a :: as) := by
        simp [takeRun, hp]
      refine ⟨?_, ?_⟩
      · intro c hc
        rw [h1] at hc
        simp at hc
      · intro c hc
        rw [h1] at hc
        exact hc

theorem matchTail_mem (capP : Char → Bool) (l : List Char) (t : String)
    (h : matchTail capP l = some t) : ∀ c ∈ t.data, c ∈ l := by
  unfold matchTail at h
  dsimp only at h
  split_ifs at h
  injection h with h
  subst h
  intro c hc
  exact (takeRun_sub isColonSpace l).2 c ((takeRun_sub capP _).1 c hc)

theorem matchTwoWord_mem (w1 w2 : List Char) (capP : Char → Bool) (l : List Char) (t : String)
    (h : matchTwoWord w1 w2 capP l = some t) : ∀ c ∈ t.data, c ∈ l := by
  unfold matchTwoWord at h
  split at h
  · rename_i r1 heq1
    dsimp only at h
    split at h
    · rename_i r2 heq2
      intro c hc
      have h1 : c ∈ r2 := matchTail_mem capP r2 t h c hc
      have h2 : c ∈ (takeRun isPySpace r1).2 := stripLit_mem w2 _ r2 heq2 c h1
      have h3 : c ∈ r1 := (takeRun_sub isPySpace r1).2 c h2
      exact stripLit_mem w1 l r1 heq1 c h3
    · exact Option.noConfusion h
  · exact Option.noConfusion h

theorem reSearch_mem (m : List Char → Option String)
    (hm : ∀ (l : List Char) (t : String), m l = some t → ∀ c ∈ t.data, c ∈ l) :
    ∀ (l : List Char) (t : String), reSearch m l = some t → ∀ c ∈ t.data, c ∈ l := by
  intro l
  induction l with
  | nil => intro t h c hc; exact hm [] t h c hc
  | cons a as ih =>
    intro t h c hc
    rw [reSearch] at h
    split at h
    · rename_i t' heq
      injection h with h
      subst h
      exact hm (a :: as) _ heq c hc
    · exact List.mem_cons_of_mem a (ih t h c hc)

theorem isUpperChar_lowerChar (c : Char) : isUpperChar (lowerChar c) = false := by
  rcases hf : lowerPairs.find? (fun p => p.1 == c) with _ | p
  · rw [show lowerChar c = c from by unfold lowerChar; rw [hf]]
    unfold isUpperChar
    rw [hf]
    rfl
  · rw [show lowerChar c = p.2 from by unfold lowerChar; rw [hf]]
    have hp : p ∈ lowerPairs := List.mem_of_find?_eq_some hf
    have hall : ∀ q ∈ lowerPairs, isUpperChar q.2 = false := by decide
    exact hall p hp

theorem lowerStr_chars_not_upper (s : String) :
    ∀ c ∈ (lowerStr s).data, isUpperChar c = false := by
  intro c hc
  unfold lowerStr at hc
  rcases List.mem_map.mp hc with ⟨c0, _, rfl⟩
  exact isUpperChar_lowerChar c0

/-- C9: handle_query extracts ObjectID and flash-code tokens from the
lowercased question, so every extracted token consists of non-uppercase
characters; a map key containing an (ASCII) uppercase letter can therefore
never equal an extracted token, and the ObjectID-lookup and flash-code-lookup
rules can never retrieve the entries stored under such a key. -/
theorem lowercased_extraction_misses_upper_keys (idx : DiagIndex) (q k : String)
    (hk : k.data.any isUpperChar = true) :
    (∀ t, reSearch matchObjIdW (lowerStr q).data = some t →
        t ≠ k ∧ (get_complete_diagnostic idx t).object_id ≠ k) ∧
    (∀ t, reSearch matchFlashW (lowerStr q).data = some t → t ≠ k) := by
  obtain ⟨c, hcmem, hcup⟩ := List.any_eq_true.mp hk
  have key : ∀ t : String, (∀ c' ∈ t.data, c' ∈ (lowerStr q).data) → t ≠ k := by
    intro t hsub heq
    subst heq
    have hlow := lowerStr_chars_not_upper q c (hsub c hcmem)
    rw [hlow] at hcup
    exact Bool.noConfusion hcup
  constructor
  · intro t ht
    have hne := key t
      (reSearch_mem matchObjIdW (fun l t h => matchTwoWord_mem _ _ _ l t h) _ t ht)
    exact ⟨hne, hne⟩
  · intro t ht
    exact key t (reSearch_mem matchFlashW (fun l t h => matchTwoWord_mem _ _ _ l t h) _ t ht)

/-- C9 witness: from "show objectid AB12" the extracted token is "ab12",
which misses the uppercase key "AB12". -/
theorem lowercased_extraction_misses_upper_keys_witness :
    reSearch matchObjIdW (lowerStr "show objectid AB12").data = some "ab12" ∧
    "ab12" ≠ "AB12" := by
  refine ⟨by decide, ?_⟩
  exact ((lowercased_extraction_misses_upper_keys emptyIdx "show objectid AB12" "AB12"
      (by decide)).1 "ab12" (by decide)).1

/-- C5 witness: a hardware record with a non-empty ObjectID does contribute
its busType. -/
theorem bus_types_complete_witness :
    "38" ∈ (build_diagnostic_index [hw1234]).bus_types :=
  (bus_types_complete [hw1234] "38").mpr
    ⟨hw1234, by decide, by decide, by decide, by decide, by decide⟩

/-- C8 witness: the amended behaviour at a concrete index. -/
theorem no_greeting_rule_witness :
    handle_query emptyIdx false aiNone "hey" = (notUnderstoodMsg, "error") :=
  (no_greeting_rule emptyIdx false aiNone).2
